import Mathlib

/-!
Verification development for the SocialMediaAPI multi-platform publish
orchestrator, due-post scheduler and platform adapters, shallowly embedded
from the Go sources.

Modelling conventions:
* time is integer unix seconds (`Time := Int`); `time.Now()` becomes an
  explicit `now` parameter;
* Go string-typed enumerations (`Platform`, `PostStatus`, `PostType`,
  privacy levels, media kinds) stay strings, with the source constants as
  named definitions;
* network interactions are abstracted as explicit outcome parameters
  (`Except String α`: the error branch is the transport or API failure the
  source observes, the ok branch carries the value the source extracts);
  each adapter additionally reports whether it reached its network phase;
* a Go function that may panic is embedded as `Except String α`
  (the error branch is the panic); goroutines without `recover` are
  collected by `runTasks`, which aborts the whole call on any panic,
  matching a Go process crash.
-/

deriving instance DecidableEq for Except

namespace SocialMediaAPI

/-- Time in unix seconds. -/
abbrev Time := Int

/-- Go `models.Platform` is a string type. -/
abbrev Platform := String

/-- Single-quote character, used to rebuild source message literals. -/
def squote : String := (Char.ofNat 39).toString

/-- Wraps a string in single quotes as the source messages do. -/
def quoted (s : String) : String := squote ++ s ++ squote

/-- Whether the first character list is an initial segment of the second. -/
def charsStartWith : List Char → List Char → Bool
  | [], _ => true
  | _ :: _, [] => false
  | a :: as, b :: bs => a == b && charsStartWith as bs

/-- Whether the first character list occurs contiguously in the second. -/
def charsContain (needle : List Char) : List Char → Bool
  | [] => charsStartWith needle []
  | b :: bs => charsStartWith needle (b :: bs) || charsContain needle bs

/-- Go `strings.Contains s sub`. -/
def goContains (s sub : String) : Bool := charsContain sub.toList s.toList

-- models/models.go ---------------------------------------------------------

def statusDraft : String := "draft"
def statusScheduled : String := "scheduled"
def statusPublishing : String := "publishing"
def statusPublished : String := "published"
def statusFailed : String := "failed"

def postTypeNormal : String := "normal"
def postTypeShort : String := "short"
def postTypeStory : String := "story"

def mediaImage : String := "image"
def mediaVideo : String := "video"

/-- Go `models.Media` (fields used by the core; `URL`, `Path`, `Type`,
`MimeType` drive adapter behaviour). -/
structure Media where
  id : String := ""
  userID : String := ""
  filename : String := ""
  path : String := ""
  url : String := ""
  mediaType : String := ""
  size : Int := 0
  mimeType : String := ""
deriving DecidableEq, Inhabited

/-- Go `models.Post`. `publishedAt` is the `published_at` JSON field: it is
decoded from client request bodies and only the publish orchestrator ever
rewrites it. -/
structure Post where
  id : String := ""
  userID : String := ""
  content : String := ""
  postType : String := ""
  mediaIDs : List String := []
  media : List Media := []
  platforms : List Platform := []
  status : String := ""
  privacyLevel : String := ""
  isSponsored : Bool := false
  scheduledFor : Option Time := none
  publishedAt : Option Time := none
  createdAt : Time := 0
  updatedAt : Time := 0
deriving DecidableEq, Inhabited

/-- Go `models.PlatformCredentials`. -/
structure PlatformCredentials where
  id : String := ""
  userID : String := ""
  platform : Platform := ""
  accessToken : String := ""
  refreshToken : String := ""
  secret : String := ""
  expiresAt : Option Time := none
  tokenType : String := ""
  platformUserID : String := ""
  platformPageID : String := ""
deriving DecidableEq, Inhabited

/-- Go `models.PublishResult`. -/
structure PublishResult where
  platform : Platform := ""
  success : Bool := false
  message : String := ""
  postID : String := ""
deriving DecidableEq, Inhabited

-- utils/token_validator.go --------------------------------------------------

/-- Go `TokenValidator.IsTokenExpired`: no expiry recorded counts as valid;
otherwise the token counts as expired when fewer than five minutes remain
(`time.Now().Add(5 * time.Minute).After(*cred.ExpiresAt)`). -/
def isTokenExpired (now : Time) (cred : PlatformCredentials) : Bool :=
  match cred.expiresAt with
  | none => false
  | some e => decide (now + 5 * 60 > e)

/-- Parsed body of the Facebook long-lived-token exchange response
(`tokenResp` in `RefreshFacebookToken`); absent JSON fields decode to the
zero values, so an error envelope parses to empty token and zero expiry. -/
structure FbTokenResponse where
  accessToken : String := ""
  tokenType : String := ""
  expiresIn : Int := 0
deriving DecidableEq, Inhabited

/-- Outcome of the exchange HTTP request in `RefreshFacebookToken`:
transport error (`http.Get` failed), body that `json.Unmarshal` rejects,
or a parsed body. -/
inductive FbExchangeOutcome where
  | requestError
  | unparseableBody
  | parsed (resp : FbTokenResponse)
deriving DecidableEq, Inhabited

/-- Go `TokenValidator.RefreshFacebookToken`: validates the token via the
platform (outcome `validateOk`), then attempts the long-lived exchange.
A transport error or unparseable body extends the expiry by 24 hours and
reports success; a parsed body overwrites the access token with the
response token and sets the expiry only when `expires_in > 0`. -/
def refreshFacebookToken (now : Time) (validateOk : Bool)
    (exchange : FbExchangeOutcome) (cred : PlatformCredentials) :
    Except String PlatformCredentials :=
  if !validateOk then
    .error "token is no longer valid and cannot be refreshed"
  else
    match exchange with
    | .requestError => .ok { cred with expiresAt := some (now + 24 * 60 * 60) }
    | .unparseableBody => .ok { cred with expiresAt := some (now + 24 * 60 * 60) }
    | .parsed resp =>
        .ok { cred with
              accessToken := resp.accessToken,
              expiresAt :=
                if resp.expiresIn > 0 then some (now + resp.expiresIn)
                else cred.expiresAt }

-- publishers: common credential guard ---------------------------------------

/-- The guard `cred == nil || cred.AccessToken == ""` shared by every
adapter. -/
def credAbsent (cred : Option PlatformCredentials) : Bool :=
  match cred with
  | none => true
  | some c => c.accessToken == ""

/-- Dereferences a credential known to be present (`cred.getD {}`). -/
def theCred (cred : Option PlatformCredentials) : PlatformCredentials :=
  cred.getD {}

-- publishers/twitter.go ------------------------------------------------------

/-- Go `TwitterPublisher.Publish`: credential guard, 5-minute expiry guard,
short-form rejection, then the network phase (`publishTextOnly` or
`publishWithMedia`, abstracted as `net`). The second component records
whether the network phase was reached. -/
def twitterPublish (now : Time) (post : Post) (cred : Option PlatformCredentials)
    (net : Except String String) : PublishResult × Bool :=
  if credAbsent cred then
    (⟨"twitter", false, "Missing Twitter credentials", ""⟩, false)
  else
    let c := theCred cred
    if isTokenExpired now c then
      (⟨"twitter", false,
        "Twitter token has expired. Please reconnect your account via OAuth", ""⟩,
       false)
    else if post.postType == postTypeShort then
      (⟨"twitter", false,
        "Twitter does not support short-form video posts. Use post_type " ++
          quoted "normal" ++ " instead", ""⟩, false)
    else
      match net with
      | .error e =>
          (⟨"twitter", false, "Error publishing to Twitter: " ++ e, ""⟩, true)
      | .ok tweetID =>
          (⟨"twitter", true, "Published successfully on Twitter", tweetID⟩, true)

-- publishers/facebook.go -----------------------------------------------------

/-- Network outcomes consumed by `FacebookPublisher.Publish`:
the token-validation call, the token-exchange call (both used by
`RefreshFacebookToken`), the page-access-token lookup
(`getPageAccessToken`, yielding page token and page id) and the
content-publish phase (`publishReel`, `publishWithMedia` or
`publishTextOnly`, yielding the external post id). -/
structure FacebookEnv where
  validateOk : Bool := true
  exchange : FbExchangeOutcome := .requestError
  pageToken : Except String (String × String) := .error ""
  content : Except String String := .error ""

/-- The part of `FacebookPublisher.Publish` after the credential and token
guards: page-access-token lookup, then the reel / media / text publish. -/
def facebookPublishWithToken (post : Post) (env : FacebookEnv) :
    PublishResult × Bool :=
  match env.pageToken with
  | .error e =>
      (⟨"facebook", false, "Error getting page access token: " ++ e, ""⟩, true)
  | .ok _ =>
    if post.postType == postTypeShort then
      match env.content with
      | .error e =>
          (⟨"facebook", false, "Error publishing Facebook Reel: " ++ e, ""⟩, true)
      | .ok postID =>
          (⟨"facebook", true, "Published successfully as Facebook Reel", postID⟩, true)
    else
      match env.content with
      | .error e =>
          (⟨"facebook", false, "Error publishing to Facebook: " ++ e, ""⟩, true)
      | .ok postID =>
          (⟨"facebook", true, "Published successfully on Facebook", postID⟩, true)

/-- Go `FacebookPublisher.Publish`: credential guard, then — unlike every
other adapter — an expired token is sent through `RefreshFacebookToken`
rather than rejected outright; only a refresh error (token rejected by the
platform validation call) produces a failure result. -/
def facebookPublish (now : Time) (post : Post) (cred : Option PlatformCredentials)
    (env : FacebookEnv) : PublishResult × Bool :=
  if credAbsent cred then
    (⟨"facebook", false, "Missing Facebook credentials", ""⟩, false)
  else
    let c := theCred cred
    if isTokenExpired now c then
      match refreshFacebookToken now env.validateOk env.exchange c with
      | .error e =>
          (⟨"facebook", false,
            "Facebook token has expired and cannot be refreshed: " ++ e, ""⟩, true)
      | .ok _ => facebookPublishWithToken post env
    else
      facebookPublishWithToken post env

-- publishers/instagram.go ----------------------------------------------------

/-- Go `InstagramPublisher.Publish`: credential guard, bound business
account guard, at-least-one-image guard, local-URL guard, then the
container/publish network phase (abstracted as `net`). The source performs
no token-expiry check. -/
def instagramPublish (post : Post) (cred : Option PlatformCredentials)
    (net : Except String String) : PublishResult × Bool :=
  if credAbsent cred then
    (⟨"instagram", false, "Missing Instagram credentials", ""⟩, false)
  else
    let c := theCred cred
    if c.platformUserID == "" then
      (⟨"instagram", false,
        "Instagram account not connected correctly. Reconnect via OAuth to fetch Instagram Business Account ID",
        ""⟩, false)
    else
      match post.media.filter (fun m => m.mediaType == mediaImage) with
      | [] =>
          (⟨"instagram", false, "Instagram requires at least one image", ""⟩, false)
      | m0 :: _ =>
        if goContains m0.url.toLower "localhost" ||
            goContains m0.url.toLower "127.0.0.1" then
          (⟨"instagram", false,
            "Instagram cannot fetch local media URLs. Use a public BASE_URL (e.g. HTTPS domain or tunnel) so Meta servers can access your files",
            ""⟩, false)
        else
          match net with
          | .error e =>
              (⟨"instagram", false, "Error publishing to Instagram: " ++ e, ""⟩, true)
          | .ok postID =>
              (⟨"instagram", true, "Published successfully on Instagram", postID⟩, true)

-- publishers/tiktok.go -------------------------------------------------------

/-- Go `TikTokPublisher.Publish`: credential guard, requires a video
attachment, then synthesizes a success locally (no HTTP request is made,
no token-expiry check and no post-type check exist in the source; the
external id is `tt_` plus the first 8 characters of a fresh UUID). -/
def tiktokPublish (post : Post) (cred : Option PlatformCredentials)
    (uuid : String) : PublishResult × Bool :=
  if credAbsent cred then
    (⟨"tiktok", false, "Missing TikTok credentials", ""⟩, false)
  else
    let hasVideo := post.media.any (fun m => m.mediaType == mediaVideo)
    if !hasVideo then
      (⟨"tiktok", false, "TikTok requires a video", ""⟩, false)
    else
      (⟨"tiktok", true, "Published successfully on TikTok",
        "tt_" ++ uuid.take 8⟩, false)

-- publishers/linkedin.go -----------------------------------------------------

/-- Go `LinkedInPublisher.Publish`: credential guard, story rejection, then
synthesizes a success locally (no HTTP request, no token-expiry check). -/
def linkedinPublish (post : Post) (cred : Option PlatformCredentials)
    (uuid : String) : PublishResult × Bool :=
  if credAbsent cred then
    (⟨"linkedin", false, "Missing LinkedIn credentials", ""⟩, false)
  else if post.postType == postTypeStory then
    (⟨"linkedin", false,
      "LinkedIn does not support stories. Use post_type " ++
        quoted "normal" ++ " instead", ""⟩, false)
  else
    (⟨"linkedin", true, "Published successfully on LinkedIn",
      "li_" ++ uuid.take 8⟩, false)

-- publishers: YouTube (src/unnamed/part_000) ---------------------------------

/-- Title base built in `YouTubePublisher.uploadVideo`: the post content,
truncated to 100 characters, falling back to `Untitled` when empty. -/
def youtubeBaseTitle (content : List Char) : List Char :=
  let t := if 100 < content.length then content.take 100 else content
  if t = [] then "Untitled".toList else t

/-- Title emitted by `YouTubePublisher.uploadVideo`: for Shorts the
` #Shorts` suffix is appended only when the truncated base leaves enough
budget (base length at most 92 characters). -/
def youtubeVideoTitle (content : List Char) (isShort : Bool) : List Char :=
  let title := youtubeBaseTitle content
  if isShort && decide (title.length ≤ 92) then
    title ++ " #Shorts".toList
  else
    title

/-- Go `YouTubePublisher.Publish`: credential guard, 5-minute expiry guard,
requires a video attachment, then the resumable-upload network phase
(abstracted as `net`, yielding the video id). -/
def youtubePublish (now : Time) (post : Post) (cred : Option PlatformCredentials)
    (net : Except String String) : PublishResult × Bool :=
  if credAbsent cred then
    (⟨"youtube", false, "Missing YouTube credentials", ""⟩, false)
  else
    let c := theCred cred
    if isTokenExpired now c then
      (⟨"youtube", false,
        "YouTube token has expired. Please reconnect your account via OAuth", ""⟩,
       false)
    else
      match post.media.find? (fun m => m.mediaType == mediaVideo) with
      | none =>
          (⟨"youtube", false, "YouTube requires a video attachment", ""⟩, false)
      | some _ =>
        match net with
        | .error e =>
            (⟨"youtube", false, "Error publishing to YouTube: " ++ e, ""⟩, true)
        | .ok videoID =>
            (⟨"youtube", true,
              (if post.postType == postTypeShort then
                "Published successfully as YouTube Short"
              else "Published successfully on YouTube"), videoID⟩, true)

-- services/publisher_service.go ----------------------------------------------

/-- A registered `PlatformPublisher.Publish` implementation as the
orchestrator sees it: any Go implementation may panic, embedded as the
error branch. -/
abbrev AdapterFn := Post → Option PlatformCredentials → Except String PublishResult

/-- One goroutine body of `PublisherService.PublishPost` for slot `plt`:
registry miss synthesizes the `Platform not supported` result without any
credential lookup; otherwise the credential is fetched (a lookup error or
missing row is passed through as `none`) and the adapter is invoked. -/
def publishSlot (registry : Platform → Option AdapterFn)
    (getCredentials : String → Platform → Option PlatformCredentials)
    (post : Post) (plt : Platform) : Except String PublishResult :=
  match registry plt with
  | none => .ok ⟨plt, false, "Platform not supported", ""⟩
  | some publish => publish post (getCredentials post.userID plt)

/-- Runs every slot task and collects the results in input order
(`results[idx] = result` under the wait-group barrier). The goroutines
carry no `recover`, so a panicking task crashes the process: the error
branch of any task aborts the whole collection. -/
def runTasks (task : Platform → Except String PublishResult) :
    List Platform → Except String (List PublishResult)
  | [] => .ok []
  | p :: ps =>
    match task p, runTasks task ps with
    | .error e, _ => .error e
    | .ok _, .error e => .error e
    | .ok r, .ok rs => .ok (r :: rs)

/-- Post-barrier transition of `PublisherService.PublishPost`:
`allSucceeded := len(results) > 0` and all results succeeded; on success
the post becomes `published` with `published_at = now`, otherwise `failed`
with `published_at` cleared. -/
def finalizePost (post : Post) (results : List PublishResult) (now : Time) : Post :=
  let allSucceeded := decide (0 < results.length) && results.all (fun r => r.success)
  if allSucceeded then
    { post with publishedAt := some now, status := statusPublished, updatedAt := now }
  else
    { post with publishedAt := none, status := statusFailed, updatedAt := now }

/-- Go `PublisherService.PublishPost`: fan out one task per target
platform, join, then apply the terminal post transition. Returns the
per-platform results in input order together with the updated post; the
error branch is a process crash caused by an unguarded adapter panic. -/
def publishPost (registry : Platform → Option AdapterFn)
    (getCredentials : String → Platform → Option PlatformCredentials)
    (post : Post) (now : Time) : Except String (List PublishResult × Post) :=
  match runTasks (publishSlot registry getCredentials post) post.platforms with
  | .error e => .error e
  | .ok results => .ok (results, finalizePost post results now)

/-- Environment feeding the six concrete adapters: the shared clock plus
each adapter network/UUID input. -/
structure AdapterEnv where
  now : Time := 0
  twitterNet : Except String String := .error ""
  facebook : FacebookEnv := {}
  instagramNet : Except String String := .error ""
  youtubeNet : Except String String := .error ""
  tiktokUUID : String := ""
  linkedinUUID : String := ""

/-- The `publishers` map built by `NewPublisherService`: the six concrete
adapters keyed by platform name. The concrete adapters always return a
result (their embeddings never panic). -/
def defaultRegistry (env : AdapterEnv) : Platform → Option AdapterFn :=
  fun plt =>
    if plt == "twitter" then
      some (fun post cred => .ok (twitterPublish env.now post cred env.twitterNet).1)
    else if plt == "facebook" then
      some (fun post cred => .ok (facebookPublish env.now post cred env.facebook).1)
    else if plt == "linkedin" then
      some (fun post cred => .ok (linkedinPublish post cred env.linkedinUUID).1)
    else if plt == "instagram" then
      some (fun post cred => .ok (instagramPublish post cred env.instagramNet).1)
    else if plt == "tiktok" then
      some (fun post cred => .ok (tiktokPublish post cred env.tiktokUUID).1)
    else if plt == "youtube" then
      some (fun post cred => .ok (youtubePublish env.now post cred env.youtubeNet).1)
    else none

-- completion-order model for the slot-indexed join ---------------------------

/-- Replays the concurrent slot writes `results[idx] = task idx` in an
arbitrary completion order over a pre-sized result array. -/
def applyCompletions (task : Nat → PublishResult) (order : List Nat)
    (init : List PublishResult) : List PublishResult :=
  order.foldl (fun arr i => arr.set i (task i)) init

-- database/post_repository.go and services/scheduler.go ----------------------

/-- Whether a row matches `status = scheduled AND scheduled_for <= now`
(SQL comparison with NULL is false). -/
def dueScheduled (now : Time) (p : Post) : Bool :=
  p.status == statusScheduled &&
    (match p.scheduledFor with
     | some t => decide (t ≤ now)
     | none => false)

/-- Go `Database.GetScheduledPosts`: a plain SELECT of the due scheduled
rows; the database state is left unchanged. -/
def getScheduledPosts (db : List Post) (now : Time) : List Post × List Post :=
  (db.filter (dueScheduled now), db)

/-- Go `Database.ClaimScheduledPosts`: the atomic
`UPDATE ... WHERE status = scheduled AND scheduled_for <= now RETURNING ...`
that flips the matched rows to `publishing` in the same operation and
returns exactly the updated rows. Defined in the repository but never
called by the scheduler. -/
def claimScheduledPosts (db : List Post) (now : Time) : List Post × List Post :=
  let claim := fun p => { p with status := statusPublishing, updatedAt := now }
  ((db.filter (dueScheduled now)).map claim,
   db.map (fun p => if dueScheduled now p then claim p else p))

/-- The claim step of one scheduler tick as `Scheduler.Start` wires it:
it calls `Database.GetScheduledPosts`, the read-only SELECT. -/
def schedulerTickSelect (db : List Post) (now : Time) : List Post × List Post :=
  getScheduledPosts db now

-- handlers: CreatePost (src/handlers/health_handler.go) ----------------------

/-- HTTP error response produced by `utils.RespondWithError`. -/
structure HttpError where
  code : Nat
  message : String
deriving DecidableEq, Inhabited

def validPrivacyLevels : List String := ["public", "followers", "friends", "private"]

def allowedShortPlatforms : List Platform := ["instagram", "facebook", "tiktok"]

def allowedStoryPlatforms : List Platform := ["facebook", "instagram"]

/-- Rejection message for normal posts targeting TikTok. -/
def tiktokNormalRejectMsg : String :=
  "TikTok only supports short-form video posts. Set post_type to " ++
    quoted "short" ++ " to publish to TikTok"

/-- Go `Handler.CreatePost` up to persistence: request validation, platform
restrictions per post type, media resolution and the construction of the
stored post. The decoded client body arrives as a full `Post` value, so
client-supplied fields such as `published_at` flow in here; the handler
rewrites id, user, timestamps and status, but never `publishedAt`. The
draft branch of the source then immediately calls
`PublisherService.PublishPost` on the returned post. -/
def createPost (getMediaByIDs : List String → Except String (List Media))
    (now : Time) (newID : String) (userID : String) (body : Post) :
    Except HttpError Post :=
  if userID == "" then
    .error ⟨401, "User ID not found in request context"⟩
  else if body.content == "" then
    .error ⟨400, "Content is required"⟩
  else if body.platforms == [] then
    .error ⟨400, "At least one platform is required"⟩
  else
    let postType := if body.postType == "" then postTypeNormal else body.postType
    if !(postType == postTypeNormal || postType == postTypeShort ||
        postType == postTypeStory) then
      .error ⟨400, "Invalid post_type. Must be " ++ quoted "normal" ++ ", " ++
        quoted "short" ++ ", or " ++ quoted "story"⟩
    else
      let privacy := if body.privacyLevel == "" then "public" else body.privacyLevel
      if !(validPrivacyLevels.contains privacy) then
        .error ⟨400, "Invalid privacy_level. Must be " ++ quoted "public" ++ ", " ++
          quoted "followers" ++ ", " ++ quoted "friends" ++ ", or " ++
          quoted "private"⟩
      else if postType == postTypeNormal && body.platforms.contains "tiktok" then
        .error ⟨400, tiktokNormalRejectMsg⟩
      else if postType == postTypeShort &&
          !(body.platforms.all (fun p => allowedShortPlatforms.contains p)) then
        .error ⟨400, "Short posts only support instagram, facebook, and tiktok platforms"⟩
      else
        let hasVideo :=
          postType == postTypeShort && !(body.mediaIDs == []) &&
            (match getMediaByIDs body.mediaIDs with
             | .ok ms => ms.any (fun m => m.mediaType == mediaVideo)
             | .error _ => false)
        if postType == postTypeShort && !hasVideo && !(body.mediaIDs == []) then
          .error ⟨400, "Short posts require at least one video media attachment"⟩
        else if postType == postTypeStory &&
            !(body.platforms.all (fun p => allowedStoryPlatforms.contains p)) then
          .error ⟨400, "Story posts only support facebook and instagram platforms"⟩
        else if postType == postTypeStory && body.mediaIDs == [] then
          .error ⟨400, "Story posts require at least one image or video media attachment"⟩
        else
          match (if body.mediaIDs == [] then .ok body.media
                 else getMediaByIDs body.mediaIDs : Except String (List Media)) with
          | .error _ => .error ⟨400, "Invalid media IDs"⟩
          | .ok mediaList =>
            if !(body.mediaIDs == []) &&
                body.mediaIDs.any (fun mid => !(mediaList.any (fun m => m.id == mid))) then
              .error ⟨400, "One or more media IDs were not found"⟩
            else if !(body.mediaIDs == []) &&
                mediaList.any (fun m => !(m.userID == userID)) then
              .error ⟨403, "Access denied to media"⟩
            else
              let status :=
                match body.scheduledFor with
                | some t => if now < t then statusScheduled else statusDraft
                | none => statusDraft
              .ok { body with
                    id := newID,
                    userID := userID,
                    postType := postType,
                    privacyLevel := privacy,
                    media := mediaList,
                    status := status,
                    createdAt := now,
                    updatedAt := now }

/-- The lifecycle invariant claimed by the data model: `published_at` is
set exactly when the status is `published`. -/
def publishedAtInvariant (post : Post) : Prop :=
  post.publishedAt.isSome = true ↔ post.status = statusPublished

instance (post : Post) : Decidable (publishedAtInvariant post) := by
  unfold publishedAtInvariant; infer_instance

-- ---------------------------------------------------------------------------
-- Shared lemmas about the orchestrator combinators
-- ---------------------------------------------------------------------------

theorem runTasks_ok_length {task : Platform → Except String PublishResult}
    {ps : List Platform} {rs : List PublishResult}
    (h : runTasks task ps = .ok rs) : rs.length = ps.length := by
  induction ps generalizing rs with
  | nil => simp only [runTasks] at h; cases h; rfl
  | cons p ps ih =>
    simp only [runTasks] at h
    cases htp : task p with
    | error e => rw [htp] at h; cases h
    | ok r =>
      rw [htp] at h
      cases hrest : runTasks task ps with
      | error e => rw [hrest] at h; cases h
      | ok rs' =>
        rw [hrest] at h
        cases h
        simp [ih hrest]

theorem runTasks_ok_getElem {task : Platform → Except String PublishResult}
    {ps : List Platform} {rs : List PublishResult}
    (h : runTasks task ps = .ok rs)
    (i : Nat) (hi : i < ps.length) :
    task (ps.getD i "") = .ok (rs.getD i default) := by
  induction ps generalizing rs i with
  | nil => exact absurd hi (by simp)
  | cons p ps ih =>
    simp only [runTasks] at h
    cases htp : task p with
    | error e => rw [htp] at h; cases h
    | ok r =>
      rw [htp] at h
      cases hrest : runTasks task ps with
      | error e => rw [hrest] at h; cases h
      | ok rs' =>
        rw [hrest] at h
        cases h
        cases i with
        | zero => simpa using htp
        | succ j =>
          have hj : j < ps.length := by simpa using hi
          simpa using ih hrest j hj

theorem isOk_ok {ε α : Type} (a : α) : (Except.ok a : Except ε α).isOk = true := rfl

theorem isOk_error {ε α : Type} (e : ε) :
    (Except.error e : Except ε α).isOk = false := rfl

theorem isOk_iff_exists_ok {ε α : Type} (e : Except ε α) :
    e.isOk = true ↔ ∃ a, e = .ok a := by
  cases e <;> simp [isOk_ok, isOk_error]

theorem runTasks_isOk_iff (task : Platform → Except String PublishResult)
    (ps : List Platform) :
    (runTasks task ps).isOk = true ↔ ∀ p ∈ ps, (task p).isOk = true := by
  induction ps with
  | nil => simp [runTasks, isOk_ok]
  | cons p ps ih =>
    simp only [runTasks]
    cases htp : task p with
    | error e =>
      simp only [isOk_error, Bool.false_eq_true, false_iff]
      intro h
      have := h p (by simp)
      rw [htp, isOk_error] at this
      cases this
    | ok r =>
      cases hrest : runTasks task ps with
      | error e =>
        simp only [isOk_error, Bool.false_eq_true, false_iff]
        intro h
        have h2 : (runTasks task ps).isOk = true :=
          ih.mpr (fun q hq => h q (by simp [hq]))
        rw [hrest, isOk_error] at h2
        cases h2
      | ok rs' =>
        simp only [isOk_ok, true_iff]
        intro q hq
        rcases List.mem_cons.mp hq with hq | hq
        · subst hq; rw [htp, isOk_ok]
        · have h2 : (runTasks task ps).isOk = true := by rw [hrest, isOk_ok]
          exact (ih.mp h2) q hq

theorem applyCompletions_cons (task : Nat → PublishResult) (i : Nat)
    (order : List Nat) (init : List PublishResult) :
    applyCompletions task (i :: order) init =
      applyCompletions task order (init.set i (task i)) := rfl

theorem applyCompletions_length (task : Nat → PublishResult) (order : List Nat)
    (init : List PublishResult) :
    (applyCompletions task order init).length = init.length := by
  induction order generalizing init with
  | nil => rfl
  | cons i order ih =>
    rw [applyCompletions_cons, ih (init.set i (task i)), List.length_set]

theorem applyCompletions_not_mem (task : Nat → PublishResult) (order : List Nat)
    (init : List PublishResult) (j : Nat) (hj : j ∉ order) :
    (applyCompletions task order init)[j]? = init[j]? := by
  induction order generalizing init with
  | nil => rfl
  | cons i order ih =>
    have hji : i ≠ j := fun h => hj (by simp [h])
    rw [applyCompletions_cons, ih (init.set i (task i)) (fun h => hj (by simp [h])),
      List.getElem?_set_ne hji]

theorem applyCompletions_mem (task : Nat → PublishResult) (order : List Nat)
    (init : List PublishResult) (j : Nat) (hj : j ∈ order) (hlt : j < init.length) :
    (applyCompletions task order init)[j]? = some (task j) := by
  induction order generalizing init with
  | nil => cases hj
  | cons i order ih =>
    rw [applyCompletions_cons]
    by_cases hmem : j ∈ order
    · exact ih (init.set i (task i)) hmem (by rw [List.length_set]; exact hlt)
    · have hij : j = i := by
        rcases List.mem_cons.mp hj with h | h
        · exact h
        · exact absurd h hmem
      subst hij
      rw [applyCompletions_not_mem task order _ j hmem,
        List.getElem?_set_self hlt]

/-- Replaying the slot writes in any completion order reconstructs the
slot-indexed result list. -/
theorem applyCompletions_eq_of_perm (task : Nat → PublishResult)
    (order : List Nat) (rs init : List PublishResult)
    (hperm : order.Perm (List.range rs.length)) (hlen : init.length = rs.length)
    (htask : ∀ j, j < rs.length → rs[j]? = some (task j)) :
    applyCompletions task order init = rs := by
  apply List.ext_getElem?
  intro j
  by_cases hj : j < rs.length
  · rw [applyCompletions_mem task order init j
      (hperm.mem_iff.mpr (List.mem_range.mpr hj)) (by rw [hlen]; exact hj)]
    exact (htask j hj).symm
  · have hout : rs.length ≤ j := Nat.le_of_not_lt hj
    rw [applyCompletions_not_mem task order init j
      (fun h => hj (List.mem_range.mp (hperm.mem_iff.mp h)))]
    rw [List.getElem?_eq_none (by rw [hlen]; exact hout),
      List.getElem?_eq_none hout]

theorem publishSlot_defaultRegistry_isOk (env : AdapterEnv)
    (getCred : String → Platform → Option PlatformCredentials)
    (post : Post) (plt : Platform) :
    ∃ r, publishSlot (defaultRegistry env) getCred post plt = .ok r := by
  dsimp only [publishSlot, defaultRegistry]
  split_ifs <;> exact ⟨_, rfl⟩

-- ---------------------------------------------------------------------------
-- C1: scheduler claim under overlapping ticks
-- ---------------------------------------------------------------------------

/-- A post due for scheduled publishing. -/
def c1Row : Post :=
  { id := "p1", userID := "u1", content := "hello",
    platforms := ["twitter"], status := statusScheduled,
    scheduledFor := some 50 }

/-- Database containing exactly the due scheduled post. -/
def c1Db : List Post := [c1Row]

/-- C1: the claim states that each scheduler tick performs a single atomic
conditional update flipping due scheduled posts to `publishing`, so two
overlapping ticks never both return the same post. The code violates this:
`Scheduler.Start` calls `Database.GetScheduledPosts`, a read-only SELECT
that leaves `status = scheduled`, so a second tick whose selection runs
before the first tick finishes publishing returns the same post again.
The repository does define the atomic `Database.ClaimScheduledPosts`
(whose own doc comment says it prevents duplicate publishes), but the
scheduler never calls it: with that operation the second tick would
return nothing. -/
theorem C1_scheduler_double_claim :
    (schedulerTickSelect c1Db 100).1 = [c1Row] ∧
    (schedulerTickSelect ((schedulerTickSelect c1Db 100).2) 100).1 = [c1Row] ∧
    (claimScheduledPosts c1Db 100).1 =
      [{ c1Row with status := statusPublishing, updatedAt := 100 }] ∧
    (claimScheduledPosts ((claimScheduledPosts c1Db 100).2) 100).1 = [] := by
  decide

-- ---------------------------------------------------------------------------
-- C10: YouTube title truncation is length-safe
-- ---------------------------------------------------------------------------

theorem youtubeBaseTitle_length_le (content : List Char) :
    (youtubeBaseTitle content).length ≤ 100 := by
  simp only [youtubeBaseTitle]
  by_cases h1 : 100 < content.length
  · simp only [h1, if_true]
    split
    · decide
    · rw [List.length_take]
      exact Nat.min_le_left _ _
  · simp only [h1, if_false]
    split
    · decide
    · omega

/-- C10: the YouTube title never exceeds the 100-character limit even after
suffix concatenation: the base title is the content truncated to 100
characters (before any suffix is considered), and for Shorts the
` #Shorts` suffix is appended exactly when the base leaves enough budget
(length at most 92), keeping the total within 100. -/
theorem C10_youtube_title_length_safe (content : List Char) (isShort : Bool) :
    (youtubeVideoTitle content isShort).length ≤ 100 ∧
    (isShort = true → (youtubeBaseTitle content).length ≤ 92 →
      youtubeVideoTitle content isShort =
        youtubeBaseTitle content ++ " #Shorts".toList) := by
  constructor
  · simp only [youtubeVideoTitle]
    split
    · next h =>
      have h92 : (youtubeBaseTitle content).length ≤ 92 := by
        have := (Bool.and_eq_true _ _).mp h
        exact of_decide_eq_true this.2
      rw [List.length_append]
      have : (" #Shorts".toList).length = 8 := by decide
      omega
    · exact youtubeBaseTitle_length_le content
  · intro hShort h92
    simp only [youtubeVideoTitle]
    rw [if_pos]
    rw [hShort, Bool.true_and]
    exact decide_eq_true h92

/-- Witness for C10 at a concrete short post whose title keeps the budget. -/
theorem C10_youtube_title_witness :
    (youtubeVideoTitle "hello world".toList true).length ≤ 100 ∧
    youtubeVideoTitle "hello world".toList true =
      youtubeBaseTitle "hello world".toList ++ " #Shorts".toList :=
  ⟨(C10_youtube_title_length_safe "hello world".toList true).1,
   (C10_youtube_title_length_safe "hello world".toList true).2 rfl (by decide)⟩

-- ---------------------------------------------------------------------------
-- C2: aggregate post transition
-- ---------------------------------------------------------------------------

/-- Credential lookup that always misses. -/
def noCreds : String → Platform → Option PlatformCredentials := fun _ _ => none

/-- A publish call over zero target platforms. -/
def c2Post : Post := { id := "p2", userID := "u1", content := "x", platforms := [] }

/-- C2 counterexample: for a publish call over N = 0 target platforms every
one of the zero per-platform results trivially has `success = true`, yet
the post ends `failed` with `published_at` unset, because the source
computes `allSucceeded := len(results) > 0 && ...`. The claim as stated
(published whenever every result succeeds) is therefore false at N = 0. -/
theorem C2_counterexample :
    publishPost (defaultRegistry {}) noCreds c2Post 1000 =
      .ok ([], { c2Post with
                 publishedAt := none
                 status := statusFailed
                 updatedAt := 1000 }) ∧
    ([] : List PublishResult).all (fun r => r.success) = true := by
  decide

/-- C2 amended: for a publish call over N ≥ 1 target platforms, if every
result succeeds the post becomes `published` with `published_at = now`;
if any result fails the post becomes `failed` with `published_at` unset
(the per-platform results themselves are returned unaltered, so succeeding
platforms still report `success = true` individually). -/
theorem C2_all_or_nothing (registry : Platform → Option AdapterFn)
    (getCred : String → Platform → Option PlatformCredentials)
    (post : Post) (now : Time) (results : List PublishResult) (post' : Post)
    (hne : post.platforms ≠ [])
    (h : publishPost registry getCred post now = .ok (results, post')) :
    (results.all (fun r => r.success) = true →
      post'.status = statusPublished ∧ post'.publishedAt = some now) ∧
    (results.all (fun r => r.success) = false →
      post'.status = statusFailed ∧ post'.publishedAt = none) := by
  unfold publishPost at h
  cases hr : runTasks (publishSlot registry getCred post) post.platforms with
  | error e => rw [hr] at h; cases h
  | ok rs =>
    rw [hr] at h
    injection h with h2
    have h1 : rs = results := congrArg Prod.fst h2
    have h3 : finalizePost post rs now = post' := congrArg Prod.snd h2
    subst h1
    subst h3
    have hpos : 0 < rs.length := by
      rw [runTasks_ok_length hr]
      exact List.length_pos.mpr hne
    constructor
    · intro hall
      simp [finalizePost, hall, hpos]
    · intro hall
      simp [finalizePost, hall]

/-- Concrete all-success publish call used to witness C2. -/
def c2wCred : PlatformCredentials := { accessToken := "tok" }

def c2wCreds : String → Platform → Option PlatformCredentials :=
  fun _ _ => some c2wCred

def c2wPost : Post :=
  { id := "p", userID := "u", content := "x", platforms := ["linkedin"] }

def c2wEnv : AdapterEnv := { now := 1000, linkedinUUID := "abcdefgh12" }

def c2wResult : PublishResult :=
  ⟨"linkedin", true, "Published successfully on LinkedIn", "li_abcdefgh"⟩

def c2wFinal : Post :=
  { c2wPost with
    publishedAt := some 1000
    status := statusPublished
    updatedAt := 1000 }

/-- Witness for the amended C2 at a concrete one-platform publish call. -/
theorem C2_all_or_nothing_witness :
    ([c2wResult].all (fun r => r.success) = true →
      c2wFinal.status = statusPublished ∧ c2wFinal.publishedAt = some 1000) ∧
    ([c2wResult].all (fun r => r.success) = false →
      c2wFinal.status = statusFailed ∧ c2wFinal.publishedAt = none) :=
  C2_all_or_nothing (defaultRegistry c2wEnv) c2wCreds c2wPost 1000
    [c2wResult] c2wFinal (by decide) (by decide)

-- ---------------------------------------------------------------------------
-- C3: slot-indexed result collection, input order
-- ---------------------------------------------------------------------------

/-- C3: with the six registered adapters, a publish call over N target
platforms returns exactly N results; the i-th result is the one produced
for `post.platforms[i]`; and replaying the concurrent slot writes in any
completion order (any permutation of the slot indices) over any pre-sized
result array reconstructs exactly that list — the slot-indexed join makes
the output independent of per-adapter completion order and latency. -/
theorem C3_result_order (env : AdapterEnv)
    (getCred : String → Platform → Option PlatformCredentials)
    (post : Post) (now : Time) (order : List Nat) (init : List PublishResult)
    (hperm : order.Perm (List.range post.platforms.length))
    (hlen : init.length = post.platforms.length) :
    ∃ results post',
      publishPost (defaultRegistry env) getCred post now = .ok (results, post') ∧
      results.length = post.platforms.length ∧
      (∀ i, i < post.platforms.length →
        publishSlot (defaultRegistry env) getCred post (post.platforms.getD i "") =
          .ok (results.getD i default)) ∧
      applyCompletions (fun i => results.getD i default) order init = results := by
  have hok : (runTasks (publishSlot (defaultRegistry env) getCred post)
      post.platforms).isOk = true := by
    rw [runTasks_isOk_iff]
    intro p _
    obtain ⟨r, hr⟩ := publishSlot_defaultRegistry_isOk env getCred post p
    rw [hr, isOk_ok]
  obtain ⟨rs, hrs⟩ := (isOk_iff_exists_ok _).mp hok
  refine ⟨rs, finalizePost post rs now, ?_, runTasks_ok_length hrs, ?_, ?_⟩
  · unfold publishPost
    rw [hrs]
  · intro i hi
    exact runTasks_ok_getElem hrs i hi
  · apply applyCompletions_eq_of_perm
    · rw [runTasks_ok_length hrs]
      exact hperm
    · rw [runTasks_ok_length hrs]
      exact hlen
    · intro j hj
      simp [List.getElem?_eq_getElem hj, List.getD_eq_getElem?_getD]

/-- Two-platform publish call used to witness C3 with a reversed
completion order. -/
def c3Env : AdapterEnv :=
  { now := 1000, twitterNet := .ok "tw1", linkedinUUID := "zzzzzzzz" }

def c3Post : Post := { userID := "u", content := "x", platforms := ["twitter", "linkedin"] }

/-- Witness for C3: two platforms completing in reverse order. -/
theorem C3_result_order_witness :
    ∃ results post',
      publishPost (defaultRegistry c3Env) noCreds c3Post 1000 = .ok (results, post') ∧
      results.length = c3Post.platforms.length ∧
      (∀ i, i < c3Post.platforms.length →
        publishSlot (defaultRegistry c3Env) noCreds c3Post (c3Post.platforms.getD i "") =
          .ok (results.getD i default)) ∧
      applyCompletions (fun i => results.getD i default) [1, 0]
        [default, default] = results :=
  C3_result_order c3Env noCreds c3Post 1000 [1, 0] [default, default]
    (by decide) (by decide)

-- ---------------------------------------------------------------------------
-- C5: adapter panics and the orchestrator
-- ---------------------------------------------------------------------------

/-- Registry in which the Twitter slot is served by an adapter
implementation whose `Publish` panics. -/
def c5PanicRegistry : Platform → Option AdapterFn :=
  fun plt =>
    if plt == "twitter" then
      some (fun _ _ =>
        .error "runtime error: invalid memory address or nil pointer dereference")
    else defaultRegistry { now := 1000, linkedinUUID := "abcdefgh" } plt

def c5Post : Post :=
  { userID := "u", content := "x", platforms := ["twitter", "linkedin"] }

/-- C5 counterexample: the goroutines spawned by
`PublisherService.PublishPost` install no `recover`, so an adapter panic
propagates and crashes the process — the publish call produces no result
list at all, rather than a `success = false` result for that platform with
sibling results intact. -/
theorem C5_counterexample :
    publishPost c5PanicRegistry noCreds c5Post 1000 =
      .error "runtime error: invalid memory address or nil pointer dereference" := by
  decide

/-- C5 amended: failures that an adapter returns as a result never abort
the call — when no slot panics the publish call returns one result per
platform; but there is no panic guard, so if any slot panics the publish
call returns no result list at all (the process crashes), taking the
sibling results with it. -/
theorem C5_no_panic_guard (registry : Platform → Option AdapterFn)
    (getCred : String → Platform → Option PlatformCredentials)
    (post : Post) (now : Time) :
    ((∀ p ∈ post.platforms, (publishSlot registry getCred post p).isOk = true) →
      ∃ results post',
        publishPost registry getCred post now = .ok (results, post') ∧
        results.length = post.platforms.length) ∧
    ((∃ p ∈ post.platforms, (publishSlot registry getCred post p).isOk = false) →
      ∀ out, publishPost registry getCred post now ≠ .ok out) := by
  constructor
  · intro hall
    obtain ⟨rs, hrs⟩ := (isOk_iff_exists_ok _).mp ((runTasks_isOk_iff _ _).mpr hall)
    refine ⟨rs, finalizePost post rs now, ?_, runTasks_ok_length hrs⟩
    unfold publishPost
    rw [hrs]
  · rintro ⟨p, hp, hfail⟩ out hout
    unfold publishPost at hout
    cases hr : runTasks (publishSlot registry getCred post) post.platforms with
    | error e => rw [hr] at hout; cases hout
    | ok rs =>
      have hok : (publishSlot registry getCred post p).isOk = true :=
        (runTasks_isOk_iff _ _).mp (by rw [hr, isOk_ok]) p hp
      rw [hfail] at hok
      cases hok

/-- Witness for the amended C5: an all-returning registry yields both
results; the panicking registry yields no result list. -/
theorem C5_no_panic_guard_witness :
    (∃ results post',
      publishPost (defaultRegistry c3Env) noCreds c3Post 1000 = .ok (results, post') ∧
      results.length = c3Post.platforms.length) ∧
    (∀ out, publishPost c5PanicRegistry noCreds c5Post 1000 ≠ .ok out) :=
  ⟨(C5_no_panic_guard (defaultRegistry c3Env) noCreds c3Post 1000).1 (by decide),
   (C5_no_panic_guard c5PanicRegistry noCreds c5Post 1000).2
     ⟨"twitter", by decide, by decide⟩⟩

-- ---------------------------------------------------------------------------
-- C4: the published_at / status invariant
-- ---------------------------------------------------------------------------

/-- Media lookup that finds nothing (no media is involved). -/
def noMediaDb : List String → Except String (List Media) := fun _ => .ok []

/-- A client body that schedules a post and smuggles in a
`published_at` timestamp. -/
def c4Body : Post :=
  { content := "hi", platforms := ["twitter"], scheduledFor := some 2000,
    publishedAt := some 50 }

/-- The post the handler constructs from `c4Body` at `now = 1000`. -/
def c4Created : Post :=
  { c4Body with
    id := "id1"
    userID := "u1"
    postType := postTypeNormal
    privacyLevel := "public"
    media := []
    status := statusScheduled
    createdAt := 1000
    updatedAt := 1000 }

/-- C4 counterexample: `Handler.CreatePost` decodes the client JSON body
straight into the `Post` model and never clears `published_at`, so a
scheduled post created from a body carrying `published_at` violates the
invariant (status `scheduled`, `published_at` set). -/
theorem C4_counterexample :
    createPost noMediaDb 1000 "id1" "u1" c4Body = .ok c4Created ∧
    c4Created.status = statusScheduled ∧
    c4Created.publishedAt = some 50 ∧
    ¬ publishedAtInvariant c4Created := by
  decide

/-- C4 amended: the invariant holds after every orchestrator status update,
and it holds after API creation whenever the client body does not itself
carry a `published_at` value (the handler passes that field through
unchanged and never assigns status `published`). -/
theorem createPost_ok_shape
    (getMediaByIDs : List String → Except String (List Media))
    (now : Time) (newID userID : String) (body created : Post)
    (hok : createPost getMediaByIDs now newID userID body = .ok created) :
    created.publishedAt = body.publishedAt ∧
    (created.status = statusScheduled ∨ created.status = statusDraft) := by
  simp only [createPost] at hok
  revert hok
  generalize (if body.postType == "" then postTypeNormal else body.postType) = pt
  generalize (if body.privacyLevel == "" then "public" else body.privacyLevel) = pv
  generalize (pt == postTypeShort && !(body.mediaIDs == []) &&
      (match getMediaByIDs body.mediaIDs with
       | .ok ms => ms.any (fun m => m.mediaType == mediaVideo)
       | .error _ => false)) = hv
  generalize (if body.mediaIDs == [] then Except.ok body.media
      else getMediaByIDs body.mediaIDs : Except String (List Media)) = ml
  intro hok
  by_cases h1 : (userID == "") = true
  · rw [if_pos h1] at hok
    cases hok
  rw [if_neg h1] at hok
  by_cases h2 : (body.content == "") = true
  · rw [if_pos h2] at hok
    cases hok
  rw [if_neg h2] at hok
  by_cases h3 : (body.platforms == []) = true
  · rw [if_pos h3] at hok
    cases hok
  rw [if_neg h3] at hok
  by_cases h4 : (!(pt == postTypeNormal || pt == postTypeShort || pt == postTypeStory)) = true
  · rw [if_pos h4] at hok
    cases hok
  rw [if_neg h4] at hok
  by_cases h5 : (!validPrivacyLevels.contains pv) = true
  · rw [if_pos h5] at hok
    cases hok
  rw [if_neg h5] at hok
  by_cases h6 : (pt == postTypeNormal && body.platforms.contains "tiktok") = true
  · rw [if_pos h6] at hok
    cases hok
  rw [if_neg h6] at hok
  by_cases h7 : (pt == postTypeShort && !(body.platforms.all fun p => allowedShortPlatforms.contains p)) = true
  · rw [if_pos h7] at hok
    cases hok
  rw [if_neg h7] at hok
  by_cases h8 : (pt == postTypeShort && !hv && !(body.mediaIDs == [])) = true
  · rw [if_pos h8] at hok
    cases hok
  rw [if_neg h8] at hok
  by_cases h9 : (pt == postTypeStory && !(body.platforms.all fun p => allowedStoryPlatforms.contains p)) = true
  · rw [if_pos h9] at hok
    cases hok
  rw [if_neg h9] at hok
  by_cases h10 : (pt == postTypeStory && body.mediaIDs == []) = true
  · rw [if_pos h10] at hok
    cases hok
  rw [if_neg h10] at hok
  cases ml with
  | error e => cases hok
  | ok mediaList =>
    dsimp only at hok
    by_cases h11 : (!(body.mediaIDs == []) &&
        body.mediaIDs.any fun mid => !(mediaList.any fun m => m.id == mid)) = true
    · rw [if_pos h11] at hok
      cases hok
    rw [if_neg h11] at hok
    by_cases h12 : (!(body.mediaIDs == []) &&
        mediaList.any fun m => !(m.userID == userID)) = true
    · rw [if_pos h12] at hok
      cases hok
    rw [if_neg h12] at hok
    cases hok
    refine ⟨rfl, ?_⟩
    cases hsf : body.scheduledFor with
    | none => exact Or.inr rfl
    | some t =>
      dsimp only
      by_cases h13 : now < t
      · rw [if_pos h13]
        exact Or.inl rfl
      · rw [if_neg h13]
        exact Or.inr rfl

theorem C4_invariant (getMediaByIDs : List String → Except String (List Media))
    (now : Time) (newID userID : String) (body created : Post)
    (orig : Post) (results : List PublishResult) (now2 : Time)
    (hnone : body.publishedAt = none)
    (hok : createPost getMediaByIDs now newID userID body = .ok created) :
    publishedAtInvariant created ∧
    publishedAtInvariant (finalizePost orig results now2) := by
  constructor
  · obtain ⟨hpa, hstat⟩ :=
      createPost_ok_shape getMediaByIDs now newID userID body created hok
    have hns : ¬ created.status = statusPublished := by
      rcases hstat with h | h <;> rw [h] <;> decide
    unfold publishedAtInvariant
    rw [hpa, hnone]
    simp [hns]
  · unfold finalizePost publishedAtInvariant
    dsimp only
    split <;> simp [statusPublished, statusFailed]

/-- A clean client body (no `published_at`) used to witness C4. -/
def c4wBody : Post :=
  { content := "hi", platforms := ["twitter"], scheduledFor := some 2000 }

def c4wCreated : Post :=
  { c4wBody with
    id := "id1"
    userID := "u1"
    postType := postTypeNormal
    privacyLevel := "public"
    media := []
    status := statusScheduled
    createdAt := 1000
    updatedAt := 1000 }

/-- Witness for the amended C4 at a concrete creation and a concrete
orchestrator update. -/
theorem C4_invariant_witness :
    publishedAtInvariant c4wCreated ∧
    publishedAtInvariant (finalizePost c4wBody [] 99) :=
  C4_invariant noMediaDb 1000 "id1" "u1" c4wBody c4wCreated c4wBody [] 99
    rfl (by decide)

-- ---------------------------------------------------------------------------
-- C6: Facebook token refresh chain
-- ---------------------------------------------------------------------------

/-- A present but expired Facebook credential. -/
def c6Cred : PlatformCredentials := { accessToken := "tok", expiresAt := some 0 }

/-- C6 counterexample: when the exchange endpoint returns a parseable
error envelope (no `access_token`, no `expires_in` — here the all-zero
parsed body), `RefreshFacebookToken` takes the successful-exchange path:
it overwrites the access token with the empty response token and leaves
the expiry untouched, instead of extending it by 24 hours as the claim
states for any failure of the chain. -/
theorem C6_counterexample :
    refreshFacebookToken 1000 true (.parsed {}) c6Cred =
      .ok { c6Cred with accessToken := "" } ∧
    ({ c6Cred with accessToken := "" } : PlatformCredentials).expiresAt = some 0 ∧
    isTokenExpired 1000 { c6Cred with accessToken := "" } = true := by
  decide

theorem facebookPublish_expired_gate (now : Time) (post : Post)
    (cred : PlatformCredentials) (fenv : FacebookEnv)
    (hc : cred.accessToken ≠ "") (hexp : isTokenExpired now cred = true) :
    facebookPublish now post (some cred) fenv =
      match refreshFacebookToken now fenv.validateOk fenv.exchange cred with
      | .error e =>
          (⟨"facebook", false,
            "Facebook token has expired and cannot be refreshed: " ++ e, ""⟩, true)
      | .ok _ => facebookPublishWithToken post fenv := by
  have habs : credAbsent (some cred) = false := by
    simp [credAbsent, hc]
  simp only [facebookPublish, habs, Bool.false_eq_true, if_false, theCred,
    Option.getD_some, hexp, if_true]

/-- C6 amended: for an expired Facebook credential the adapter runs the
refresh chain instead of failing outright. Validation failure yields the
token-failure result; when validation succeeds the adapter always proceeds
to publishing, and an exchange transport error or unparseable body
extends the expiry by 24 hours. (A parseable response — even an error
envelope — is instead treated as a successful exchange, overwriting the
access token and touching the expiry only when `expires_in > 0`.) -/
theorem C6_facebook_refresh (now : Time) (post : Post)
    (cred : PlatformCredentials) (fenv : FacebookEnv)
    (hc : cred.accessToken ≠ "") (hexp : isTokenExpired now cred = true) :
    (fenv.validateOk = false →
      facebookPublish now post (some cred) fenv =
        (⟨"facebook", false,
          "Facebook token has expired and cannot be refreshed: token is no longer valid and cannot be refreshed",
          ""⟩, true)) ∧
    (fenv.validateOk = true →
      facebookPublish now post (some cred) fenv = facebookPublishWithToken post fenv) ∧
    (fenv.validateOk = true →
      (fenv.exchange = .requestError ∨ fenv.exchange = .unparseableBody) →
      refreshFacebookToken now fenv.validateOk fenv.exchange cred =
        .ok { cred with expiresAt := some (now + 24 * 60 * 60) }) := by
  refine ⟨?_, ?_, ?_⟩
  · intro hv
    rw [facebookPublish_expired_gate now post cred fenv hc hexp]
    simp [refreshFacebookToken, hv]
  · intro hv
    rw [facebookPublish_expired_gate now post cred fenv hc hexp]
    cases hex : fenv.exchange <;> simp [refreshFacebookToken, hv, hex]
  · intro hv hex
    rcases hex with hex | hex <;> simp [refreshFacebookToken, hv, hex]

/-- Post and environment used to witness C6. -/
def c6wPost : Post := { userID := "u", content := "x" }

def c6wEnv : FacebookEnv :=
  { validateOk := true, exchange := .requestError,
    pageToken := .ok ("pagetok", "page1"), content := .ok "fb_post_1" }

/-- Witness for C6 at an expired credential whose exchange request fails. -/
theorem C6_facebook_refresh_witness :
    (c6wEnv.validateOk = false →
      facebookPublish 1000 c6wPost (some c6Cred) c6wEnv =
        (⟨"facebook", false,
          "Facebook token has expired and cannot be refreshed: token is no longer valid and cannot be refreshed",
          ""⟩, true)) ∧
    (c6wEnv.validateOk = true →
      facebookPublish 1000 c6wPost (some c6Cred) c6wEnv =
        facebookPublishWithToken c6wPost c6wEnv) ∧
    (c6wEnv.validateOk = true →
      (c6wEnv.exchange = .requestError ∨ c6wEnv.exchange = .unparseableBody) →
      refreshFacebookToken 1000 c6wEnv.validateOk c6wEnv.exchange c6Cred =
        .ok { c6Cred with expiresAt := some (1000 + 24 * 60 * 60) }) :=
  C6_facebook_refresh 1000 c6wPost c6Cred c6wEnv (by decide) (by decide)

-- ---------------------------------------------------------------------------
-- C7: non-Facebook token-expiry pre-check
-- ---------------------------------------------------------------------------

def c7Video : Media := { id := "m1", userID := "u1", mediaType := mediaVideo }

def c7Post : Post :=
  { userID := "u1", content := "x", postType := postTypeNormal,
    platforms := ["tiktok"], media := [c7Video] }

def c7Cred : PlatformCredentials := { accessToken := "tok", expiresAt := some 0 }

/-- C7 counterexample: the TikTok adapter performs no token-expiry check
at all — with a credential well inside the 5-minute buffer it publishes
successfully rather than returning a token-expired failure (the Instagram
and LinkedIn adapters likewise have no expiry check). -/
theorem C7_counterexample :
    isTokenExpired 1000 c7Cred = true ∧
    tiktokPublish c7Post (some c7Cred) "uuid0000" =
      (⟨"tiktok", true, "Published successfully on TikTok", "tt_uuid0000"⟩,
       false) := by
  decide

/-- C7 amended: of the non-Facebook adapters only Twitter and YouTube
reject a credential whose expiry is within the 5-minute buffer, and they
do so before any network call (the network flag stays false); Instagram,
TikTok and LinkedIn perform no expiry check. -/
theorem C7_expiry_precheck (now : Time) (post : Post)
    (cred : PlatformCredentials) (net1 net2 : Except String String)
    (hc : cred.accessToken ≠ "") (hexp : isTokenExpired now cred = true) :
    twitterPublish now post (some cred) net1 =
      (⟨"twitter", false,
        "Twitter token has expired. Please reconnect your account via OAuth", ""⟩,
       false) ∧
    youtubePublish now post (some cred) net2 =
      (⟨"youtube", false,
        "YouTube token has expired. Please reconnect your account via OAuth", ""⟩,
       false) := by
  have habs : credAbsent (some cred) = false := by
    simp [credAbsent, hc]
  constructor
  · simp only [twitterPublish, habs, Bool.false_eq_true, if_false, theCred,
      Option.getD_some, hexp, if_true]
  · simp only [youtubePublish, habs, Bool.false_eq_true, if_false, theCred,
      Option.getD_some, hexp, if_true]

/-- Witness for the amended C7 at a concrete expired credential. -/
theorem C7_expiry_precheck_witness :
    twitterPublish 1000 c6wPost (some c7Cred) (.ok "t1") =
      (⟨"twitter", false,
        "Twitter token has expired. Please reconnect your account via OAuth", ""⟩,
       false) ∧
    youtubePublish 1000 c6wPost (some c7Cred) (.ok "y1") =
      (⟨"youtube", false,
        "YouTube token has expired. Please reconnect your account via OAuth", ""⟩,
       false) :=
  C7_expiry_precheck 1000 c6wPost c7Cred (.ok "t1") (.ok "y1")
    (by decide) (by decide)

-- ---------------------------------------------------------------------------
-- C8: missing credentials
-- ---------------------------------------------------------------------------

/-- C8: with credentials absent (lookup miss, nil record, or empty access
token — exactly `credAbsent`), every one of the six adapters returns a
failure result whose message identifies the missing credentials, without
reaching its network phase; and the orchestrator passes a missed lookup
through as a nil credential, so the slot result is that same failure. -/
theorem C8_missing_credentials (env : AdapterEnv) (post : Post)
    (cred : Option PlatformCredentials) (h : credAbsent cred = true) :
    twitterPublish env.now post cred env.twitterNet =
      (⟨"twitter", false, "Missing Twitter credentials", ""⟩, false) ∧
    facebookPublish env.now post cred env.facebook =
      (⟨"facebook", false, "Missing Facebook credentials", ""⟩, false) ∧
    linkedinPublish post cred env.linkedinUUID =
      (⟨"linkedin", false, "Missing LinkedIn credentials", ""⟩, false) ∧
    instagramPublish post cred env.instagramNet =
      (⟨"instagram", false, "Missing Instagram credentials", ""⟩, false) ∧
    tiktokPublish post cred env.tiktokUUID =
      (⟨"tiktok", false, "Missing TikTok credentials", ""⟩, false) ∧
    youtubePublish env.now post cred env.youtubeNet =
      (⟨"youtube", false, "Missing YouTube credentials", ""⟩, false) ∧
    (∀ getCred : String → Platform → Option PlatformCredentials,
      getCred post.userID "twitter" = none →
      publishSlot (defaultRegistry env) getCred post "twitter" =
        .ok ⟨"twitter", false, "Missing Twitter credentials", ""⟩) := by
  refine ⟨?_, ?_, ?_, ?_, ?_, ?_, ?_⟩
  · simp [twitterPublish, h]
  · simp [facebookPublish, h]
  · simp [linkedinPublish, h]
  · simp [instagramPublish, h]
  · simp [tiktokPublish, h]
  · simp [youtubePublish, h]
  · intro getCred hg
    have hreg : defaultRegistry env "twitter" =
        some (fun post cred => .ok (twitterPublish env.now post cred env.twitterNet).1) := rfl
    simp only [publishSlot, hreg, hg]
    simp [twitterPublish, credAbsent]

/-- Witness for C8: a nil credential at a concrete post. -/
theorem C8_missing_credentials_witness :
    twitterPublish (AdapterEnv.now {}) c2Post none (AdapterEnv.twitterNet {}) =
      (⟨"twitter", false, "Missing Twitter credentials", ""⟩, false) ∧
    facebookPublish (AdapterEnv.now {}) c2Post none (AdapterEnv.facebook {}) =
      (⟨"facebook", false, "Missing Facebook credentials", ""⟩, false) ∧
    linkedinPublish c2Post none (AdapterEnv.linkedinUUID {}) =
      (⟨"linkedin", false, "Missing LinkedIn credentials", ""⟩, false) ∧
    instagramPublish c2Post none (AdapterEnv.instagramNet {}) =
      (⟨"instagram", false, "Missing Instagram credentials", ""⟩, false) ∧
    tiktokPublish c2Post none (AdapterEnv.tiktokUUID {}) =
      (⟨"tiktok", false, "Missing TikTok credentials", ""⟩, false) ∧
    youtubePublish (AdapterEnv.now {}) c2Post none (AdapterEnv.youtubeNet {}) =
      (⟨"youtube", false, "Missing YouTube credentials", ""⟩, false) ∧
    (∀ getCred : String → Platform → Option PlatformCredentials,
      getCred c2Post.userID "twitter" = none →
      publishSlot (defaultRegistry {}) getCred c2Post "twitter" =
        .ok ⟨"twitter", false, "Missing Twitter credentials", ""⟩) :=
  C8_missing_credentials {} c2Post none rfl

-- ---------------------------------------------------------------------------
-- C9: normal post targeting TikTok
-- ---------------------------------------------------------------------------

/-- Client body targeting only TikTok with post type `normal`. -/
def c9Body : Post :=
  { content := "hi", platforms := ["tiktok"], postType := postTypeNormal }

def c9Video : Media := { id := "m9", userID := "u1", mediaType := mediaVideo }

/-- A normal-type TikTok post as the adapter would receive it. -/
def c9Post : Post :=
  { userID := "u1", content := "hi", postType := postTypeNormal,
    platforms := ["tiktok"], media := [c9Video] }

def c9Cred : PlatformCredentials := { accessToken := "tok" }

/-- C9 counterexample: a normal-type post targeting `[tiktok]` never
produces a PublishResult with the short-form message — the rejection with
that message lives in `Handler.CreatePost`, which answers HTTP 400 before
any post exists or any publish is attempted; and the TikTok adapter
itself checks no post type, so publishing a normal post with credentials
and a video succeeds. -/
theorem C9_counterexample :
    createPost noMediaDb 1000 "id9" "u1" c9Body =
      .error ⟨400, tiktokNormalRejectMsg⟩ ∧
    (tiktokPublish c9Post (some c9Cred) "uuid9999").1.success = true ∧
    (tiktokPublish c9Post (some c9Cred) "uuid9999").1.message =
      "Published successfully on TikTok" := by
  decide

/-- C9 amended: a create request whose platform list contains `tiktok`
and whose post type is `normal` (or defaults to it) is rejected by the
API layer with HTTP 400 and the message stating TikTok only supports
short-form video posts — before any post is created, any publish runs, or
any network call is made; the adapter itself never sees such a post. -/
theorem C9_tiktok_normal_rejected
    (getMediaByIDs : List String → Except String (List Media))
    (now : Time) (newID userID : String) (body : Post)
    (huser : userID ≠ "") (hcontent : body.content ≠ "")
    (htype : body.postType = "" ∨ body.postType = postTypeNormal)
    (hpriv : body.privacyLevel = "" ∨
      validPrivacyLevels.contains body.privacyLevel = true)
    (htk : body.platforms.contains "tiktok" = true) :
    createPost getMediaByIDs now newID userID body =
      .error ⟨400, tiktokNormalRejectMsg⟩ := by
  have hplat : (body.platforms == []) = false := by
    cases hpl : body.platforms with
    | nil => rw [hpl] at htk; cases htk
    | cons a l => simp
  have htk' : "tiktok" ∈ body.platforms := by
    simpa using htk
  have hpt : (if body.postType == "" then postTypeNormal else body.postType) =
      postTypeNormal := by
    rcases htype with h | h <;> simp [h]
  have hprivacy : (if body.privacyLevel = "" then "public" else body.privacyLevel) ∈
      validPrivacyLevels := by
    by_cases hpe : body.privacyLevel = ""
    · simp [hpe, validPrivacyLevels]
    · have h2 : body.privacyLevel ∈ validPrivacyLevels := by
        rcases hpriv with h | h
        · exact absurd h hpe
        · simpa using h
      simp [hpe, h2]
  simp only [createPost]
  rw [if_neg (by simp [huser]), if_neg (by simp [hcontent]),
    if_neg (by simp [hplat]), hpt]
  rw [if_neg (by simp [postTypeNormal, postTypeShort, postTypeStory]),
    if_neg (by simp [hprivacy]), if_pos (by simp [htk'])]

/-- Clean client body used to witness C9 (post type left to default). -/
def c9wBody : Post := { content := "x", platforms := ["facebook", "tiktok"] }

/-- Witness for the amended C9. -/
theorem C9_tiktok_normal_rejected_witness :
    createPost noMediaDb 1000 "id" "u" c9wBody =
      .error ⟨400, tiktokNormalRejectMsg⟩ :=
  C9_tiktok_normal_rejected noMediaDb 1000 "id" "u" c9wBody
    (by decide) (by decide) (Or.inl rfl) (Or.inl rfl) (by decide)

end SocialMediaAPI
